import Mathlib

/-!
Verification development for the meta-ops-validator validation-and-scoring
pipeline.  The Python sources under `src/metaops` are shallowly embedded:
pure functions become Lean functions, CPython exceptions become `Except`,
IEEE doubles are modelled by exact rationals (every arithmetic step the
claims touch is exact in decimal), and lxml XPath query results are carried
as explicit data on the embedded documents.
-/

deriving instance DecidableEq for Except

namespace MetaOps

/-! ## Python string and number helpers -/

/-- Characters removed by Python `str.strip()` (whitespace). -/
def stripChars (l : List Char) : List Char :=
  ((l.dropWhile Char.isWhitespace).reverse.dropWhile Char.isWhitespace).reverse

/-- Python `str.strip()`. -/
def pyStrip (s : String) : String := ⟨stripChars s.data⟩

/-- Python `str.lower()` (ASCII fragment). -/
def pyLower (s : String) : String := s.toLower

/-- Python `str.upper()` (ASCII fragment). -/
def pyUpper (s : String) : String := s.toUpper

/-- Python substring test `needle in hay`. -/
def strContains (hay needle : String) : Bool :=
  (List.range (hay.data.length + 1)).any
    (fun i => (hay.data.drop i).take needle.data.length = needle.data)

/-- Value of a decimal digit character. -/
def digitVal (c : Char) : Option ℕ :=
  if c.isDigit then some (c.toNat - 48) else none

/-- Value of a nonempty all-digit character list. -/
def digitsVal (l : List Char) : Option ℕ :=
  if l.isEmpty then none
  else l.foldlM (fun acc c => (digitVal c).map (fun d => acc * 10 + d)) 0

/-- Unsigned decimal mantissa: `digits`, `digits.`, `.digits` or `digits.digits`. -/
def parseUnsignedDec (l : List Char) : Option ℚ :=
  let intPart := l.takeWhile Char.isDigit
  let rest := l.drop intPart.length
  match rest with
  | [] => (digitsVal intPart).map (fun n => (n : ℚ))
  | '.' :: frac =>
    if frac.any (fun c => !c.isDigit) then none
    else if intPart.isEmpty && frac.isEmpty then none
    else some (((digitsVal intPart).getD 0 : ℚ) +
               ((digitsVal frac).getD 0 : ℚ) / (10 ^ frac.length : ℚ))
  | _ => none

/-- Model of Python `float()` on finite decimal literals:
`[sign](digits[.digits] | .digits | digits.)[(e|E)[sign]digits]`, with
surrounding whitespace ignored.  Anything else raises `ValueError`,
modelled as `none`.  (The model carries exact rationals, not IEEE doubles;
every comparison the embedded code performs on these values is exact.) -/
def parsePyFloat (s : String) : Option ℚ :=
  let l := stripChars s.data
  let signAndRest : ℚ × List Char :=
    match l with
    | '+' :: t => (1, t)
    | '-' :: t => (-1, t)
    | t => (1, t)
  let sign := signAndRest.1
  let body := signAndRest.2
  let mant := body.takeWhile (fun c => c != 'e' && c != 'E')
  let expPart := body.drop mant.length
  match parseUnsignedDec mant with
  | none => none
  | some q =>
    match expPart with
    | [] => some (sign * q)
    | _ :: e =>
      let esignAndRest : ℤ × List Char :=
        match e with
        | '+' :: t => (1, t)
        | '-' :: t => (-1, t)
        | t => (1, t)
      if esignAndRest.2.isEmpty || esignAndRest.2.any (fun c => !c.isDigit) then none
      else some (sign * q * (10 : ℚ) ^ (esignAndRest.1 * ((digitsVal esignAndRest.2).getD 0 : ℤ)))

/-- Floor of a rational, executably (`Int.ediv`-free formulation agreeing
with `Rat.floor`). -/
def qfloor (q : ℚ) : ℤ := q.num / q.den

/-- Round to the nearest integer, ties to even: the idealization of Python
`round` (CPython rounds the closest double half-to-even). -/
def rnte (q : ℚ) : ℤ :=
  if q - (qfloor q : ℚ) < 1/2 then qfloor q
  else if 1/2 < q - (qfloor q : ℚ) then qfloor q + 1
  else if qfloor q % 2 = 0 then qfloor q else qfloor q + 1

/-- Python `round(x, 1)`. -/
def round1 (q : ℚ) : ℚ := ((rnte (q * 10) : ℤ) : ℚ) / 10

/-! ## Completeness scoring engine (`validators/nielsen_scoring.py`)

A `Product` is one `<Product>` element of the parsed ONIX document,
represented by the text of the nodes each field predicate queries: for each
XPath used by a `_score_*` helper the corresponding field holds the list of
matched nodes, each node carried as its lxml `.text` (`none` models
Python `None` for an empty element).  The namespaced and unqualified
variants of each query select the same logical nodes, so one field per
query suffices. -/

/-- lxml element `.text`: `None` or a string. -/
abbrev NodeText := Option String

structure Product where
  /-- `.//ProductIdentifier[ProductIDType=15]/IDValue` -/
  isbn15 : List NodeText
  /-- `.//ProductIdentifier[ProductIDType=03]/IDValue` -/
  isbn03 : List NodeText
  /-- `.//TitleDetail/TitleElement/TitleText` -/
  title : List NodeText
  /-- `.//Contributor/PersonName` -/
  contributors : List NodeText
  /-- `.//TextContent[TextType=03]/Text` -/
  description : List NodeText
  /-- `.//Subject/SubjectCode` -/
  subjects : List NodeText
  /-- `.//ProductForm` -/
  productForm : List NodeText
  /-- `.//Price/PriceAmount` -/
  price : List NodeText
  /-- `.//PublishingDate/Date` -/
  pubDate : List NodeText
  /-- `.//Publisher/PublisherName` -/
  publisher : List NodeText
  /-- `.//Imprint/ImprintName` -/
  imprint : List NodeText
  /-- `.//Collection/TitleDetail/TitleElement/TitleText` -/
  series : List NodeText
  /-- `.//SupportingResource[ResourceContentType=01]/ResourceVersion/ResourceLink` -/
  coverImage : List NodeText
  deriving DecidableEq, Repr

/-- `NIELSEN_WEIGHTS` from `nielsen_scoring.py`, in source order. -/
def NIELSEN_WEIGHTS : List (String × ℕ) :=
  [("isbn", 20), ("title", 15), ("contributors", 12),
   ("description", 10), ("subject_codes", 8), ("product_form", 8), ("price", 7),
   ("publication_date", 5), ("publisher", 5), ("imprint", 4), ("series", 3), ("cover_image", 3)]

/-- `NIELSEN_WEIGHTS[field]`. -/
def nielsenWeight (field : String) : ℕ := (NIELSEN_WEIGHTS.lookup field).getD 0

/-- `sum(NIELSEN_WEIGHTS.values())`. -/
def nielsenTotalPossible : ℕ := (NIELSEN_WEIGHTS.map Prod.snd).sum

/-- `_score_isbn`: a raising call (`.text` of `None`) is an `Except.error`,
as everywhere below. -/
def _score_isbn (product : Product) : Except String ℕ :=
  let isbn_nodes := if product.isbn15.isEmpty then product.isbn03 else product.isbn15
  match isbn_nodes with
  | [] => .ok 0
  | t :: _ =>
    match t with
    | none => .error "AttributeError"
    | some s => .ok (if 10 ≤ (pyStrip s).length then nielsenWeight "isbn" else 0)

/-- `_score_title`. -/
def _score_title (product : Product) : Except String ℕ :=
  match product.title with
  | [] => .ok 0
  | t :: _ =>
    match t with
    | none => .error "AttributeError"
    | some s => .ok (if 3 < (pyStrip s).length then nielsenWeight "title" else 0)

/-- `_score_contributors`. -/
def _score_contributors (product : Product) : Except String ℕ :=
  match product.contributors with
  | [] => .ok 0
  | t :: _ =>
    match t with
    | none => .error "AttributeError"
    | some s => .ok (if 3 < (pyStrip s).length then nielsenWeight "contributors" else 0)

/-- `_score_description`. -/
def _score_description (product : Product) : Except String ℕ :=
  match product.description with
  | [] => .ok 0
  | t :: _ =>
    match t with
    | none => .error "AttributeError"
    | some s => .ok (if 50 < (pyStrip s).length then nielsenWeight "description" else 0)

/-- `_score_subjects`. -/
def _score_subjects (product : Product) : Except String ℕ :=
  match product.subjects with
  | [] => .ok 0
  | t :: _ =>
    match t with
    | none => .error "AttributeError"
    | some s => .ok (if 0 < (pyStrip s).length then nielsenWeight "subject_codes" else 0)

/-- `_score_product_form`. -/
def _score_product_form (product : Product) : Except String ℕ :=
  match product.productForm with
  | [] => .ok 0
  | t :: _ =>
    match t with
    | none => .error "AttributeError"
    | some s => .ok (if 0 < (pyStrip s).length then nielsenWeight "product_form" else 0)

/-- `_score_price`: `float(...)` on a non-numeric string raises `ValueError`. -/
def _score_price (product : Product) : Except String ℕ :=
  match product.price with
  | [] => .ok 0
  | t :: _ =>
    match t with
    | none => .error "AttributeError"
    | some s =>
      match parsePyFloat (pyStrip s) with
      | none => .error ("ValueError: could not convert string to float: " ++ pyStrip s)
      | some q => .ok (if 0 < q then nielsenWeight "price" else 0)

/-- `_score_publication_date`. -/
def _score_publication_date (product : Product) : Except String ℕ :=
  match product.pubDate with
  | [] => .ok 0
  | t :: _ =>
    match t with
    | none => .error "AttributeError"
    | some s => .ok (if 8 ≤ (pyStrip s).length then nielsenWeight "publication_date" else 0)

/-- `_score_publisher`. -/
def _score_publisher (product : Product) : Except String ℕ :=
  match product.publisher with
  | [] => .ok 0
  | t :: _ =>
    match t with
    | none => .error "AttributeError"
    | some s => .ok (if 0 < (pyStrip s).length then nielsenWeight "publisher" else 0)

/-- `_score_imprint`. -/
def _score_imprint (product : Product) : Except String ℕ :=
  match product.imprint with
  | [] => .ok 0
  | t :: _ =>
    match t with
    | none => .error "AttributeError"
    | some s => .ok (if 0 < (pyStrip s).length then nielsenWeight "imprint" else 0)

/-- `_score_series`. -/
def _score_series (product : Product) : Except String ℕ :=
  match product.series with
  | [] => .ok 0
  | t :: _ =>
    match t with
    | none => .error "AttributeError"
    | some s => .ok (if 0 < (pyStrip s).length then nielsenWeight "series" else 0)

/-- `_score_cover_image`. -/
def _score_cover_image (product : Product) : Except String ℕ :=
  match product.coverImage with
  | [] => .ok 0
  | t :: _ =>
    match t with
    | none => .error "AttributeError"
    | some s => .ok (if 10 < (pyStrip s).length then nielsenWeight "cover_image" else 0)

/-- One entry of `all_products_scores` in `calculate_nielsen_score`. -/
structure ProductScore where
  product_index : ℕ
  overall_score : ℚ
  total_score : ℕ
  breakdown : List (String × ℕ)
  missing_critical : List String
  deriving DecidableEq, Repr

/-- The per-product body of `calculate_nielsen_score` (lines 68-168): the
twelve field predicates run in source order; the first raising predicate
aborts the whole computation. -/
def scoreProduct (product_index : ℕ) (product : Product) : Except String ProductScore := do
  let isbn_score ← _score_isbn product
  let title_score ← _score_title product
  let contrib_score ← _score_contributors product
  let desc_score ← _score_description product
  let subject_score ← _score_subjects product
  let form_score ← _score_product_form product
  let price_score ← _score_price product
  let pub_date_score ← _score_publication_date product
  let pub_score ← _score_publisher product
  let imprint_score ← _score_imprint product
  let series_score ← _score_series product
  let cover_score ← _score_cover_image product
  let total_score := isbn_score + title_score + contrib_score + desc_score + subject_score +
    form_score + price_score + pub_date_score + pub_score + imprint_score + series_score + cover_score
  let breakdown := [("isbn", isbn_score), ("title", title_score), ("contributors", contrib_score),
    ("description", desc_score), ("subject_codes", subject_score), ("product_form", form_score),
    ("price", price_score), ("publication_date", pub_date_score), ("publisher", pub_score),
    ("imprint", imprint_score), ("series", series_score), ("cover_image", cover_score)]
  let missing_elements :=
    (if isbn_score = 0 then ["isbn"] else []) ++
    (if title_score = 0 then ["title"] else []) ++
    (if contrib_score = 0 then ["contributors"] else []) ++
    (if desc_score = 0 then ["description"] else []) ++
    (if subject_score = 0 then ["subject_codes"] else []) ++
    (if form_score = 0 then ["product_form"] else []) ++
    (if price_score = 0 then ["price"] else []) ++
    (if pub_date_score = 0 then ["publication_date"] else []) ++
    (if pub_score = 0 then ["publisher"] else []) ++
    (if imprint_score = 0 then ["imprint"] else []) ++
    (if series_score = 0 then ["series"] else []) ++
    (if cover_score = 0 then ["cover_image"] else [])
  let percentage_score := round1 ((total_score : ℚ) / (nielsenTotalPossible : ℚ) * 100)
  .ok ⟨product_index, percentage_score, total_score, breakdown, missing_elements⟩

/-- The `for product_index, product in enumerate(products)` loop: stops at the
first product whose scoring raises. -/
def scoreProductsFrom (i : ℕ) : List Product → Except String (List ProductScore)
  | [] => .ok []
  | p :: ps => do
    let s ← scoreProduct i p
    let rest ← scoreProductsFrom (i + 1) ps
    .ok (s :: rest)

/-- `min` over a nonempty list of rationals (`0` is never used: callers
guard nonemptiness as the source does). -/
def qListMin : List ℚ → ℚ
  | [] => 0
  | x :: xs => xs.foldl min x

/-- `max` over a nonempty list of rationals. -/
def qListMax : List ℚ → ℚ
  | [] => 0
  | x :: xs => xs.foldl max x

/-- Result dictionary shapes of `calculate_nielsen_score`.  `missing_critical`
is built through a Python `set`, whose iteration order is unspecified; it is
modelled as first-occurrence deduplication and compared only up to
membership in the theorems. -/
inductive NielsenResult where
  /-- the `if not products` early return -/
  | noProducts (overall_score : ℚ) (total_possible : ℕ) (missing_critical : List String)
  /-- the aggregate success return -/
  | ok (overall_score min_score max_score : ℚ) (products_count total_possible : ℕ)
       (products_scores : List ProductScore) (missing_critical : List String)
  /-- the `"No products processed"` branch (unreachable for nonempty input) -/
  | noProcessed (overall_score : ℚ) (total_possible : ℕ) (missing_critical : List String)
  /-- the outer `except Exception` return -/
  | error (msg : String) (overall_score : ℚ) (total_possible : ℕ) (missing_critical : List String)
  deriving DecidableEq, Repr

/-- `calculate_nielsen_score`, over the already-parsed list of `Product`
nodes of the document (parsing and namespace detection only choose which
XPath strings are used; the `Product` representation already carries the
query results). -/
def calculate_nielsen_score (products : List Product) : NielsenResult :=
  if products.isEmpty then
    .noProducts 0 nielsenTotalPossible (NIELSEN_WEIGHTS.map Prod.fst)
  else
    match scoreProductsFrom 0 products with
    | .error e =>
      .error ("Nielsen scoring failed: " ++ e) 0 nielsenTotalPossible (NIELSEN_WEIGHTS.map Prod.fst)
    | .ok all_products_scores =>
      if all_products_scores.isEmpty then
        .noProcessed 0 nielsenTotalPossible (NIELSEN_WEIGHTS.map Prod.fst)
      else
        let avg_score := ((all_products_scores.map (·.overall_score)).sum) /
          (all_products_scores.length : ℚ)
        let min_score := qListMin (all_products_scores.map (·.overall_score))
        let max_score := qListMax (all_products_scores.map (·.overall_score))
        let all_missing := ((all_products_scores.map (·.missing_critical)).flatten).dedup
        .ok (round1 avg_score) min_score max_score all_products_scores.length
          nielsenTotalPossible all_products_scores all_missing

/-- `result["overall_score"]`. -/
def NielsenResult.overallScore : NielsenResult → ℚ
  | .noProducts s _ _ => s
  | .ok s _ _ _ _ _ _ => s
  | .noProcessed s _ _ => s
  | .error _ s _ _ => s

/-- `result["missing_critical"]`. -/
def NielsenResult.missingCritical : NielsenResult → List String
  | .noProducts _ _ m => m
  | .ok _ _ _ _ _ _ m => m
  | .noProcessed _ _ m => m
  | .error _ _ _ m => m

/-- `result["breakdown"]` when present (`{}` on the error branches, absent
from the aggregate branch which carries per-product breakdowns instead). -/
def NielsenResult.isErrorResult : NielsenResult → Bool
  | .error _ _ _ _ => true
  | _ => false

/-! ## Rule DSL engine (`rules/engine.py`, `rules/dsl.py`)

The engine is embedded from the point where the rules file has been loaded
and the document parsed: lxml XPath evaluation is carried on the document
as two oracle functions (`evalWhen` for absolute evaluation at the root,
`evalAssert` for evaluation relative to a context node), each returning
`Except` to model `etree.XPathEvalError` and any other raised exception. -/

/-- `dsl.Rule`. -/
structure Rule where
  id : String
  name : String
  when : String
  assert_expr : String
  severity : String
  explain : Option String
  deriving DecidableEq, Repr

/-- A context node: what the engine reads off an lxml element
(`getattr(node, "sourceline", 1)` and `xml_doc.getpath(node)`). -/
structure Node where
  sourceline : ℕ
  path : String
  deriving DecidableEq, Repr

/-- An lxml XPath evaluation result, as `_truthy` discriminates it.  A
Python `bool` is an `int`, so the `boolean` constructor is classified by
the source's number branch (`value != 0`), which coincides with the
value itself; the final `return bool(value)` fallback has no inhabitant
here because lxml returns no further result type. -/
inductive XPathValue where
  | nodeset (nodes : List Node)
  | str (s : String)
  | bytes (b : List ℕ)
  | num (q : ℚ)
  | boolean (b : Bool)
  deriving DecidableEq, Repr

/-- Python `bytes.strip()`: ASCII whitespace. -/
def bytesStrip (b : List ℕ) : List ℕ :=
  let ws : List ℕ := [32, 9, 10, 13, 11, 12]
  ((b.dropWhile (· ∈ ws)).reverse.dropWhile (· ∈ ws)).reverse

/-- `_truthy` from `rules/engine.py`: note that the string branch strips
whitespace before testing emptiness. -/
def _truthy : XPathValue → Bool
  | .nodeset value => 0 < value.length
  | .str value => 0 < (pyStrip value).data.length
  | .bytes value => 0 < (bytesStrip value).length
  | .num value => decide (value ≠ 0)
  | .boolean value => value

/-- The parsed document as the engine consumes it. -/
structure XmlDoc where
  namespaceUri : Option String
  evalWhen : String → Except String (List Node)
  evalAssert : Node → String → Except String XPathValue

/-- The finding dictionary shape shared by every branch of `evaluate`;
keys absent from a given branch are `none`. -/
structure Finding where
  line : ℕ
  level : String
  domain : String
  type : String
  message : String
  path : String
  rule_id : Option String := none
  explanation : Option String := none
  context_path : Option String := none
  assert_expression : Option String := none
  nsUri : Option (Option String) := none
  rules_used : Option String := none
  deriving DecidableEq, Repr

/-- `str(NameError)` for the undefined name `element` that both `except`
handlers of `evaluate` reference on their `"line"` expression. -/
def nameErrorMsg : String := "name 'element' is not defined"

/-- The finding the outer `except Exception` handler of `evaluate` appends. -/
def mkValidationErrorFinding (docName msg : String) : Finding :=
  { line := 1, level := "ERROR", domain := "VALIDATION_ERROR", type := "rules",
    message := "Rule engine validation failed: " ++ msg, path := docName }

/-- The per-context-node finding for a rule whose assert result is falsy. -/
def mkRuleFinding (rule : Rule) (node : Node) (docName : String)
    (nsUri : Option String) (rulesUsed : String) : Finding :=
  { line := node.sourceline, level := pyUpper rule.severity, domain := "CUSTOM_RULE",
    type := "rules", message := rule.name, path := docName,
    rule_id := some rule.id, explanation := some (rule.explain.getD ""),
    context_path := some node.path, assert_expression := some rule.assert_expr,
    nsUri := some nsUri, rules_used := some rulesUsed }

/-- The `VALIDATION_SUCCESS` marker emitted when no findings and at least
one rule was loaded. -/
def mkSuccessFinding (docName rulesUsed : String) (ruleCount : ℕ)
    (nsUri : Option String) : Finding :=
  { line := 1, level := "INFO", domain := "VALIDATION_SUCCESS", type := "rules",
    message := "Rule engine validation passed using " ++ rulesUsed ++
      " (" ++ toString ruleCount ++ " rules)",
    path := docName, nsUri := some nsUri }

/-- The `for node in ctx_nodes` loop of `evaluate`.  When `assert`
evaluation raises, the `except` handler is entered, but evaluating its
`"line"` expression raises `NameError` (the name `element` is undefined in
`engine.py`), which escapes to the outer handler: the accumulated findings
are kept (the handler appends to the same list) and the whole run aborts
(`true` in the second component). -/
def evalAssertNodes (doc : XmlDoc) (docName rulesUsed : String) (rule : Rule) :
    List Node → List Finding → List Finding × Bool
  | [], findings => (findings, false)
  | node :: rest, findings =>
    match doc.evalAssert node rule.assert_expr with
    | .error _ => (findings ++ [mkValidationErrorFinding docName nameErrorMsg], true)
    | .ok result =>
      if _truthy result then
        evalAssertNodes doc docName rulesUsed rule rest findings
      else
        evalAssertNodes doc docName rulesUsed rule rest
          (findings ++ [mkRuleFinding rule node docName doc.namespaceUri rulesUsed])

/-- The `for rule in rules` loop of `evaluate`, with the same abortive
`NameError` behaviour when evaluating `when` raises. -/
def evalRulesLoop (doc : XmlDoc) (docName rulesUsed : String) :
    List Rule → List Finding → List Finding × Bool
  | [], findings => (findings, false)
  | rule :: rest, findings =>
    match doc.evalWhen rule.when with
    | .error _ => (findings ++ [mkValidationErrorFinding docName nameErrorMsg], true)
    | .ok ctx_nodes =>
      if ctx_nodes.isEmpty then evalRulesLoop doc docName rulesUsed rest findings
      else
        match evalAssertNodes doc docName rulesUsed rule ctx_nodes findings with
        | (findings2, true) => (findings2, true)
        | (findings2, false) => evalRulesLoop doc docName rulesUsed rest findings2

/-- `evaluate` from `rules/engine.py`, given the loaded rules and parsed
document (`enhance_rule_with_codelist_check` is the identity: its only
conditional branch is `pass`).  On abort the success-marker block is
skipped, exactly as the raised exception skips it in the source. -/
def evaluate (doc : XmlDoc) (rules : List Rule) (docName rulesUsed : String) : List Finding :=
  match evalRulesLoop doc docName rulesUsed rules [] with
  | (findings, true) => findings
  | (findings, false) =>
    if findings.isEmpty && !rules.isEmpty then
      [mkSuccessFinding docName rulesUsed rules.length doc.namespaceUri]
    else findings

/-! ## Codelist registry (`codelists.py`) and the engine's codelist check -/

/-- `CodelistManager`, functionally: the lazily-written caches only ever
hold the value the lookup chain computes, so the observable behaviour of
`is_valid_code` is a pure function of the backing resources.
`xmlCodelists` is the table parsed from the bundled XML resource (empty
when the file is missing or corrupt); `csvResource` maps a CSV filename to
its parsed rows, `none` when the file is absent or unreadable. -/
structure CodelistManager where
  loadedLists : List (String × List (String × String))
  xmlCodelists : List (String × List (String × String))
  csvResource : String → Option (List (String × String))

/-- Python dict insert: update in place or append. -/
def dictInsert (l : List (String × String)) (k v : String) : List (String × String) :=
  if (l.lookup k).isSome then l.map (fun p => if p.1 = k then (k, v) else p)
  else l ++ [(k, v)]

/-- `CodelistManager._load_csv_codelist`: a missing file degrades to an
empty table; present rows with truthy code and description are kept,
stripped. -/
def _load_csv_codelist (m : CodelistManager) (list_name : String) : List (String × String) :=
  match m.csvResource (pyLower list_name ++ ".csv") with
  | none => []
  | some rows =>
    rows.foldl (fun codelist r =>
      if r.1 ≠ "" && r.2 ≠ "" then dictInsert codelist (pyStrip r.1) (pyStrip r.2)
      else codelist) []

/-- `CodelistManager.load_codelist`: cache, then XML, then CSV fallback. -/
def load_codelist (m : CodelistManager) (list_name : String) : List (String × String) :=
  match m.loadedLists.lookup list_name with
  | some t => t
  | none =>
    match m.xmlCodelists.lookup list_name with
    | some t => t
    | none => _load_csv_codelist m list_name

/-- `CodelistManager.is_valid_code`: key membership in the loaded table. -/
def is_valid_code (m : CodelistManager) (list_name code : String) : Bool :=
  ((load_codelist m list_name).lookup code).isSome

/-- `load_edl_codelists` from `rules/engine.py`. -/
def load_edl_codelists : List (String × List String) :=
  [("List5", ["01", "02", "03", "04", "05"]),
   ("List7", ["BC", "BB", "BD", "ED", "EB"]),
   ("List91", ["01", "02", "11", "12", "13"]),
   ("List163", ["01", "02", "09", "11", "19"])]

/-- `validate_against_codelist` from `rules/engine.py`: an unknown codelist
name is assumed valid. -/
def validate_against_codelist (value codelist_name : String)
    (codelists : List (String × List String)) : Bool :=
  match codelists.lookup codelist_name with
  | none => true
  | some codes => (pyStrip value) ∈ codes

/-! ## Retailer compatibility engine (`validators/retailer_profiles.py`) -/

/-- One entry of `RETAILER_PROFILES` (the per-retailer extra requirement
lists such as `buy_button_requirements` are read by no embedded function
and are omitted). -/
structure RetailerProfile where
  name : String
  critical_fields : List String
  recommended_fields : List String
  weights : List (String × ℕ)
  discovery_boost : List String
  deriving DecidableEq, Repr

/-- `RETAILER_PROFILES`, in source order; each `weights` dict is carried as
its insertion-ordered pair list. -/
def RETAILER_PROFILES : List (String × RetailerProfile) :=
  [("amazon",
    { name := "Amazon KDP/Author Central",
      critical_fields := ["isbn", "title", "contributors", "description", "product_form", "price"],
      recommended_fields := ["subject_codes", "series", "cover_image", "publication_date"],
      weights := [("isbn", 25), ("title", 20), ("contributors", 15), ("description", 15),
        ("product_form", 10), ("price", 10), ("subject_codes", 3), ("series", 2)],
      discovery_boost := ["subject_codes", "series", "description"] }),
   ("ingram",
    { name := "IngramSpark",
      critical_fields := ["isbn", "title", "contributors", "product_form", "price", "publisher"],
      recommended_fields := ["description", "subject_codes", "publication_date", "imprint"],
      weights := [("isbn", 20), ("title", 18), ("contributors", 15), ("product_form", 12),
        ("price", 12), ("publisher", 10), ("description", 8), ("subject_codes", 5)],
      discovery_boost := ["subject_codes", "publisher", "imprint"] }),
   ("apple",
    { name := "Apple Books",
      critical_fields := ["isbn", "title", "contributors", "description", "product_form"],
      recommended_fields := ["subject_codes", "series", "cover_image", "price"],
      weights := [("isbn", 22), ("title", 20), ("contributors", 18), ("description", 15),
        ("product_form", 12), ("subject_codes", 8), ("series", 3), ("cover_image", 2)],
      discovery_boost := ["description", "subject_codes", "series"] }),
   ("kobo",
    { name := "Kobo",
      critical_fields := ["isbn", "title", "contributors", "description", "product_form", "price"],
      recommended_fields := ["subject_codes", "series", "publication_date"],
      weights := [("isbn", 20), ("title", 18), ("contributors", 16), ("description", 14),
        ("product_form", 12), ("price", 10), ("subject_codes", 6), ("series", 4)],
      discovery_boost := ["description", "subject_codes", "series"] }),
   ("barnes_noble",
    { name := "Barnes & Noble Press",
      critical_fields := ["isbn", "title", "contributors", "description", "product_form", "price"],
      recommended_fields := ["subject_codes", "publisher", "series", "cover_image"],
      weights := [("isbn", 22), ("title", 18), ("contributors", 15), ("description", 15),
        ("product_form", 12), ("price", 8), ("subject_codes", 6), ("publisher", 4)],
      discovery_boost := ["description", "subject_codes", "publisher"] }),
   ("overdrive",
    { name := "OverDrive",
      critical_fields := ["isbn", "title", "contributors", "description", "product_form", "publisher"],
      recommended_fields := ["subject_codes", "series", "publication_date", "imprint"],
      weights := [("isbn", 18), ("title", 16), ("contributors", 14), ("description", 12),
        ("product_form", 12), ("publisher", 12), ("subject_codes", 8), ("series", 8)],
      discovery_boost := ["subject_codes", "series", "publisher"] })]

/-- `_score_field_for_retailer`: dispatch to the shared Nielsen field
scorer, then rescale to binary 0/100; a field without a scorer scores 0. -/
def _score_field_for_retailer (product : Product) (field : String) : Except String ℕ := do
  match field with
  | "isbn" => (fun s => if 0 < s then 100 else 0) <$> _score_isbn product
  | "title" => (fun s => if 0 < s then 100 else 0) <$> _score_title product
  | "contributors" => (fun s => if 0 < s then 100 else 0) <$> _score_contributors product
  | "description" => (fun s => if 0 < s then 100 else 0) <$> _score_description product
  | "subject_codes" => (fun s => if 0 < s then 100 else 0) <$> _score_subjects product
  | "product_form" => (fun s => if 0 < s then 100 else 0) <$> _score_product_form product
  | "price" => (fun s => if 0 < s then 100 else 0) <$> _score_price product
  | "publication_date" => (fun s => if 0 < s then 100 else 0) <$> _score_publication_date product
  | "publisher" => (fun s => if 0 < s then 100 else 0) <$> _score_publisher product
  | "imprint" => (fun s => if 0 < s then 100 else 0) <$> _score_imprint product
  | "series" => (fun s => if 0 < s then 100 else 0) <$> _score_series product
  | "cover_image" => (fun s => if 0 < s then 100 else 0) <$> _score_cover_image product
  | _ => .ok 0

/-- One value of the `field_scores` dict. -/
structure FieldEntry where
  score : ℕ
  weight : ℕ
  weighted_score : ℚ
  deriving DecidableEq, Repr

/-- The accumulator of the `for field, weight in profile["weights"].items()`
loop of `calculate_retailer_score`. -/
structure FieldAcc where
  field_scores : List (String × FieldEntry)
  total_score : ℚ
  missing_critical : List String
  missing_recommended : List String
  deriving DecidableEq, Repr

/-- The field loop of `calculate_retailer_score` (lines 129-143); a raising
scorer propagates to the function's `except` handler. -/
def scoreFieldsLoop (product : Product) (profile : RetailerProfile) :
    List (String × ℕ) → FieldAcc → Except String FieldAcc
  | [], acc => .ok acc
  | (field, weight) :: rest, acc => do
    let score ← _score_field_for_retailer product field
    let entry : FieldEntry :=
      ⟨score, weight, if 0 < score then (score : ℚ) * ((weight : ℚ) / 100) else 0⟩
    let acc := { acc with field_scores := acc.field_scores ++ [(field, entry)] }
    let acc :=
      if 0 < score then { acc with total_score := acc.total_score + entry.weighted_score }
      else if field ∈ profile.critical_fields then
        { acc with missing_critical := acc.missing_critical ++ [field] }
      else if field ∈ profile.recommended_fields then
        { acc with missing_recommended := acc.missing_recommended ++ [field] }
      else acc
    scoreFieldsLoop product profile rest acc

/-- `_calculate_discovery_score`. -/
def _calculate_discovery_score (field_scores : List (String × FieldEntry))
    (discovery_fields : List String) : ℚ :=
  let present := discovery_fields.filterMap
    (fun field => (field_scores.lookup field).map (fun e => (e.weighted_score, e.weight)))
  let discovery_total := (present.map (·.1)).sum
  let discovery_possible := (present.map (fun p => (p.2 : ℚ))).sum
  round1 (if 0 < discovery_possible then discovery_total / discovery_possible * 100 else 0)

/-- The `_assess_retailer_risk` return value. -/
structure RiskAssessment where
  level : String
  factors : List String
  deriving DecidableEq, Repr

/-- `_assess_retailer_risk`: the level is driven by the missing-critical
count alone; the identity check on isbn/price/product_form only adds a
factor inside the already-HIGH branch.  (`0.3` is the double nearest 3/10,
indistinguishable from 3/10 at every count/total this code reaches.) -/
def _assess_retailer_risk (missing_critical : List String) (profile : RetailerProfile) :
    RiskAssessment :=
  let critical_count := missing_critical.length
  let total_critical := profile.critical_fields.length
  if critical_count = 0 then ⟨"LOW", ["All critical fields present"]⟩
  else if (critical_count : ℚ) ≤ (total_critical : ℚ) * (3/10) then
    ⟨"MEDIUM", ["Missing " ++ toString critical_count ++ " critical fields",
      "May affect discoverability"]⟩
  else
    let factors := ["Missing " ++ toString critical_count ++ " critical fields",
      "High rejection risk"]
    let factors :=
      if ["isbn", "price", "product_form"].any (· ∈ missing_critical) then
        factors ++ ["Buy button functionality at risk"]
      else factors
    ⟨"HIGH", factors⟩

/-- `_generate_retailer_recommendations`. -/
def _generate_retailer_recommendations (critical_missing recommended_missing : List String)
    (profile : RetailerProfile) : List String :=
  let recommendations :=
    (if !critical_missing.isEmpty then
      ["CRITICAL: Add missing required fields: " ++
        String.intercalate ", " (critical_missing.take 5)]
     else []) ++
    (if !recommended_missing.isEmpty then
      ["OPTIMIZE: Add recommended fields for better discovery: " ++
        String.intercalate ", " (recommended_missing.take 3)]
     else []) ++
    (if strContains (pyLower profile.name) "amazon" && "description" ∈ critical_missing then
      ["Amazon requires rich descriptions for search ranking"]
     else []) ++
    (if strContains (pyLower profile.name) "ingram" && "publisher" ∈ critical_missing then
      ["IngramSpark requires publisher info for distribution"]
     else [])
  if recommendations.isEmpty then
    ["Excellent! Meets all " ++ profile.name ++ " requirements"]
  else recommendations

/-- `_get_compliance_status` (the `profile` parameter is unread, as in the
source). -/
def _get_compliance_status (missing_critical : List String) (_profile : RetailerProfile) :
    String :=
  if missing_critical.isEmpty then "COMPLIANT"
  else if missing_critical.length ≤ 2 then "PARTIAL_COMPLIANCE"
  else "NON_COMPLIANT"

/-- The result dictionary shapes of `calculate_retailer_score`. -/
inductive RetailerResult where
  /-- unknown retailer key -/
  | unknown (error : String) (available_profiles : List String)
  /-- the `if not products` early return -/
  | noProducts (retailer : String) (overall_score : ℚ) (message : String)
      (critical_missing : List String) (risk_level : String)
  /-- the success return -/
  | ok (retailer retailer_key : String) (overall_score : ℚ) (max_possible : ℕ)
      (field_breakdown : List (String × FieldEntry))
      (critical_missing recommended_missing : List String)
      (discovery_score : ℚ) (risk_level : String) (risk_factors : List String)
      (recommendations : List String) (compliance_status : String)
  /-- the `except Exception` return -/
  | err (retailer error : String) (overall_score : ℚ) (risk_level : String)
  deriving DecidableEq, Repr

/-- `calculate_retailer_score`, over the parsed `Product` list: only
`products[0]` is scored. -/
def calculate_retailer_score (retailer : String) (products : List Product) : RetailerResult :=
  match RETAILER_PROFILES.lookup retailer with
  | none => .unknown ("Unknown retailer profile: " ++ retailer) (RETAILER_PROFILES.map Prod.fst)
  | some profile =>
    match products with
    | [] => .noProducts profile.name 0 "No products found in ONIX file"
        profile.critical_fields "HIGH"
    | product :: _ =>
      match scoreFieldsLoop product profile profile.weights ⟨[], 0, [], []⟩ with
      | .error e => .err profile.name ("Retailer scoring failed: " ++ e) 0 "UNKNOWN"
      | .ok acc =>
        let risk_assessment := _assess_retailer_risk acc.missing_critical profile
        .ok profile.name retailer (round1 acc.total_score) 100 acc.field_scores
          acc.missing_critical acc.missing_recommended
          (_calculate_discovery_score acc.field_scores profile.discovery_boost)
          risk_assessment.level risk_assessment.factors
          (_generate_retailer_recommendations acc.missing_critical acc.missing_recommended profile)
          (_get_compliance_status acc.missing_critical profile)

/-- `v.get("overall_score", 0)`. -/
def RetailerResult.overallScoreD : RetailerResult → ℚ
  | .unknown _ _ => 0
  | .noProducts _ s _ _ _ => s
  | .ok _ _ s _ _ _ _ _ _ _ _ _ => s
  | .err _ _ s _ => s

/-- `"overall_score" in v`. -/
def RetailerResult.hasOverall : RetailerResult → Bool
  | .unknown _ _ => false
  | _ => true

/-- The `critical_missing` list the multi-retailer comparison extends
`all_missing` with; branches without the key contribute nothing, modelled
as `[]`. -/
def RetailerResult.criticalMissingD : RetailerResult → List String
  | .noProducts _ _ _ cm _ => cm
  | .ok _ _ _ _ _ cm _ _ _ _ _ _ => cm
  | _ => []

/-- `result["risk_level"]` (absent only on the unknown-retailer branch). -/
def RetailerResult.riskLevelD : RetailerResult → String
  | .unknown _ _ => ""
  | .noProducts _ _ _ _ r => r
  | .ok _ _ _ _ _ _ _ _ r _ _ _ => r
  | .err _ _ _ r => r

/-- Whether the result is the success shape. -/
def RetailerResult.isOk : RetailerResult → Bool
  | .ok _ _ _ _ _ _ _ _ _ _ _ _ => true
  | _ => false

/-- Python `max(scores, key=lambda x: x[1])`: first maximum. -/
def pyMaxBySnd : List (String × ℚ) → String × ℚ
  | [] => ("", 0)
  | x :: xs => xs.foldl (fun best y => if best.2 < y.2 then y else best) x

/-- Python `min(scores, key=lambda x: x[1])`: first minimum. -/
def pyMinBySnd : List (String × ℚ) → String × ℚ
  | [] => ("", 0)
  | x :: xs => xs.foldl (fun best y => if y.2 < best.2 then y else best) x

/-- The `retailer_scores` dict of `calculate_multi_retailer_score`: requested
names filtered to recognized ones; a repeated name overwrites its own equal
value, so dict semantics reduce to first-occurrence deduplication. -/
def retailerScoresList (products : List Product) (retailers : List String) :
    List (String × RetailerResult) :=
  ((retailers.filter (fun r => (RETAILER_PROFILES.lookup r).isSome)).dedup).map
    (fun r => (r, calculate_retailer_score r products))

/-- `all_missing`: the concatenation of every evaluated retailer's
`critical_missing`. -/
def allMissingOf (products : List Product) (retailers : List String) : List String :=
  ((retailerScoresList products retailers).map (fun p => p.2.criticalMissingD)).flatten

/-- `common_gaps`: fields of `all_missing` occurring at least
`len(retailers) // 2` times (the threshold counts the requested names, the
occurrences count evaluated retailers), passed through a Python `set`
(modelled as first-occurrence dedup, compared up to membership). -/
def commonGapsOf (products : List Product) (retailers : List String) : List String :=
  let all_missing := allMissingOf products retailers
  (all_missing.filter (fun field => retailers.length / 2 ≤ all_missing.count field)).dedup

/-- `_generate_multi_retailer_recommendation`. -/
def _generate_multi_retailer_recommendation
    (_retailer_scores : List (String × RetailerResult)) (common_gaps : List String) : String :=
  if common_gaps.isEmpty then
    "Good cross-retailer compatibility. Consider optimizing for your primary sales channels."
  else
    "Priority: Fix common gaps across retailers: " ++
      String.intercalate ", " (common_gaps.take 5) ++
      ". This will improve acceptance rates across all platforms."

/-- The result shapes of `calculate_multi_retailer_score`. -/
inductive MultiResult where
  /-- no recognized retailer requested -/
  | err (error : String)
  /-- the trailing unreachable comparative-metrics failure return -/
  | errDetails (error : String) (retailer_details : List (String × RetailerResult))
  /-- the comparative success return -/
  | ok (file : String) (retailers_analyzed : ℕ) (average_score : ℚ)
      (best_fit_retailer : String) (best_fit_score : ℚ)
      (worst_fit_retailer : String) (worst_fit_score : ℚ)
      (common_gaps : List String) (retailer_details : List (String × RetailerResult))
      (recommendation : String)
  deriving DecidableEq, Repr

/-- `calculate_multi_retailer_score` (`retailers=None` defaults to every
profile key at the call boundary; the embedding takes the resolved list). -/
def calculate_multi_retailer_score (docName : String) (products : List Product)
    (retailers : List String) : MultiResult :=
  let retailer_scores := retailerScoresList products retailers
  if retailer_scores.isEmpty then .err "No valid retailer profiles provided"
  else
    let scores := (retailer_scores.filter (fun p => p.2.hasOverall)).map
      (fun p => (p.1, p.2.overallScoreD))
    if scores.isEmpty then
      .errDetails "Unable to calculate comparative metrics" retailer_scores
    else
      let avg_score := ((scores.map (·.2)).sum) / (scores.length : ℚ)
      let best_fit := pyMaxBySnd scores
      let worst_fit := pyMinBySnd scores
      let common_gaps := commonGapsOf products retailers
      .ok docName retailer_scores.length (round1 avg_score) best_fit.1 best_fit.2
        worst_fit.1 worst_fit.2 common_gaps retailer_scores
        (_generate_multi_retailer_recommendation retailer_scores common_gaps)

/-- `result["average_score"]`. -/
def MultiResult.averageScoreD : MultiResult → ℚ
  | .ok _ _ a _ _ _ _ _ _ _ => a
  | _ => 0

/-- `result["best_fit_score"]`. -/
def MultiResult.bestFitScoreD : MultiResult → ℚ
  | .ok _ _ _ _ b _ _ _ _ _ => b
  | _ => 0

/-- `result["worst_fit_score"]`. -/
def MultiResult.worstFitScoreD : MultiResult → ℚ
  | .ok _ _ _ _ _ _ w _ _ _ => w
  | _ => 0

/-- `result["common_gaps"]`. -/
def MultiResult.commonGapsD : MultiResult → List String
  | .ok _ _ _ _ _ _ _ g _ _ => g
  | _ => []

/-! ## Concrete documents used by the witnesses and counterexamples -/

/-- A product satisfying every field predicate. -/
def fullProduct : Product :=
  { isbn15 := [some "9780123456789"], isbn03 := [],
    title := [some "The Example Book"],
    contributors := [some "Jane Author"],
    description := [some "A long description of the book that easily exceeds fifty characters in length."],
    subjects := [some "FIC000000"],
    productForm := [some "BC"],
    price := [some "19.99"],
    pubDate := [some "20240101"],
    publisher := [some "Example House"],
    imprint := [some "Example Imprint"],
    series := [some "Example Series"],
    coverImage := [some "https://example.com/cover.jpg"] }

/-- A product with no metadata at all: every field predicate scores 0. -/
def emptyProduct : Product :=
  { isbn15 := [], isbn03 := [], title := [], contributors := [], description := [],
    subjects := [], productForm := [], price := [], pubDate := [], publisher := [],
    imprint := [], series := [], coverImage := [] }

/-- A product carrying only a valid ISBN and a title. -/
def isbnTitleProduct : Product :=
  { emptyProduct with isbn15 := [some "9780123456789"], title := [some "The Example Book"] }

/-- A complete product except for a non-numeric `PriceAmount`, on which the
price predicate raises `ValueError`. -/
def badPriceProduct : Product :=
  { fullProduct with price := [some "not-a-price"] }

/-- A complete product except that it names no publisher. -/
def noPublisherProduct : Product :=
  { fullProduct with publisher := [] }

/-- A complete product except that it carries no ISBN. -/
def noIsbnProduct : Product :=
  { fullProduct with isbn15 := [], isbn03 := [] }

/-- A demo context node matched by the rule `when` expressions below. -/
def demoNode : Node := ⟨5, "/ONIXMessage/Product"⟩

/-- A rule whose `assert` expression is malformed (its evaluation raises
`XPathEvalError`). -/
def badAssertRule : Rule :=
  ⟨"R1", "Malformed assert rule", "//Product", "///bad(", "warn", none⟩

/-- A well-formed rule whose `assert` is falsy on the demo document: left
alone it reports one `CUSTOM_RULE` finding. -/
def goodRule : Rule :=
  ⟨"R2", "Well-formed failing rule", "//Product", "false()", "error", some "always false"⟩

/-- The demo document for the engine: `//Product` matches one node, the
malformed expression raises, `false()` evaluates to a falsy boolean. -/
def demoDoc : XmlDoc :=
  { namespaceUri := none,
    evalWhen := fun e => if e = "//Product" then .ok [demoNode] else .ok [],
    evalAssert := fun _ e =>
      if e = "false()" then .ok (.boolean false) else .error "Invalid expression" }

/-- The registry over absent backing resources: no XML file, no CSV files,
nothing cached. -/
def bareCodelistManager : CodelistManager := ⟨[], [], fun _ => none⟩

/-- The truthiness contract exactly as the specification words it: a
non-empty node-sequence is true, a non-empty string is true, a non-zero
number is true, anything else coerces natively. -/
def truthinessClaim : XPathValue → Bool
  | .nodeset value => !value.isEmpty
  | .str value => !value.data.isEmpty
  | .bytes value => !value.isEmpty
  | .num value => decide (value ≠ 0)
  | .boolean value => value

/-- The truthiness contract as the code implements it: strings (and byte
strings) are stripped of whitespace before the emptiness test. -/
def truthinessAmended : XPathValue → Bool
  | .nodeset value => !value.isEmpty
  | .str value => !(pyStrip value).data.isEmpty
  | .bytes value => !(bytesStrip value).isEmpty
  | .num value => decide (value ≠ 0)
  | .boolean value => value

/-! ## Theorems

Rational arithmetic must reduce for `decide`; the Batteries `Rat`
operations are `@[irreducible]` only as an elaboration hint. -/

attribute [local semireducible] Rat.add Rat.sub Rat.mul Rat.inv Rat.ofScientific

/-- Claim C1 (code_bug): the claim says an XPath evaluation error in one
rule's `when` or `assert` yields exactly one ERROR finding for that rule
while the remaining rules still evaluate.  The code instead aborts: both
`except` handlers in `evaluate` reference the undefined name `element`, so
handling the `XPathEvalError` raises `NameError`, which escapes to the
outer handler.  On the demo document, the malformed rule followed by a
well-formed failing rule yields only the single document-level
`VALIDATION_ERROR` finding — the well-formed rule, which alone reports its
own finding, is never evaluated. -/
theorem c1_xpath_error_aborts_run :
    evaluate demoDoc [badAssertRule, goodRule] "doc.xml" "rules.yml" =
      [mkValidationErrorFinding "doc.xml" nameErrorMsg] ∧
    evaluate demoDoc [goodRule] "doc.xml" "rules.yml" =
      [mkRuleFinding goodRule demoNode "doc.xml" none "rules.yml"] := by
  constructor <;> rfl

/-- Claim C3 (counterexample): for a list number with no backing table the
registry's `is_valid_code` returns `false` — not `true` as the fail-open
claim states.  List `"999"` loads as the empty table here, and every code
is reported invalid. -/
theorem c3_registry_fail_closed :
    load_codelist bareCodelistManager "999" = [] ∧
    is_valid_code bareCodelistManager "999" "01" = false := by
  constructor <;> rfl

/-- Claim C3 (amended): the fail-open convention lives only in the rule
engine's `validate_against_codelist`, which accepts any value against a
codelist name absent from its table; the registry (`CodelistManager`)
itself is fail-closed: an absent list degrades to an empty table on which
every membership test is `false`. -/
theorem c3_lookup_fail_modes :
    (∀ (m : CodelistManager) (list_name code : String),
        m.loadedLists.lookup list_name = none →
        m.xmlCodelists.lookup list_name = none →
        m.csvResource (pyLower list_name ++ ".csv") = none →
        is_valid_code m list_name code = false) ∧
    (∀ (value codelist_name : String) (codelists : List (String × List String)),
        codelists.lookup codelist_name = none →
        validate_against_codelist value codelist_name codelists = true) := by
  constructor
  · intro m list_name code h1 h2 h3
    simp [is_valid_code, load_codelist, _load_csv_codelist, h1, h2, h3]
  · intro value codelist_name codelists h
    simp [validate_against_codelist, h]

/-- Witness for the amended C3 theorem at concrete inputs: the bare
registry rejects code `"BC"` of unmodeled list `"150"`, while the engine
helper accepts code `"99"` against the unmodeled name `"List150"`. -/
theorem c3_lookup_fail_modes_witness :
    is_valid_code bareCodelistManager "150" "BC" = false ∧
    validate_against_codelist "99" "List150" load_edl_codelists = true :=
  ⟨c3_lookup_fail_modes.1 bareCodelistManager "150" "BC" rfl rfl rfl,
   c3_lookup_fail_modes.2 "99" "List150" load_edl_codelists rfl⟩

/-- Claim C9 (counterexample): the claimed contract calls every non-empty
string truthy, but `_truthy` strips whitespace first: the non-empty string
`" "` is falsy for the engine. -/
theorem c9_whitespace_string_falsy :
    _truthy (.str " ") = false ∧ truthinessClaim (.str " ") = true ∧
    _truthy (.str " ") ≠ truthinessClaim (.str " ") := by
  refine ⟨rfl, rfl, by decide⟩

/-- Claim C9 (amended): `_truthy` agrees everywhere with the contract in
which the string clauses read "non-empty after stripping whitespace"; the
other clauses (non-empty node-sequence, non-zero number, native coercion
for booleans) are as claimed. -/
theorem c9_truthiness_contract : ∀ value : XPathValue, _truthy value = truthinessAmended value := by
  intro value
  cases value with
  | nodeset l => cases l <;> simp [_truthy, truthinessAmended]
  | str s =>
    simp only [_truthy, truthinessAmended]
    cases (pyStrip s).data <;> simp
  | bytes b =>
    simp only [_truthy, truthinessAmended]
    cases bytesStrip b <;> simp
  | num q => rfl
  | boolean b => rfl

/-- Claim C10: `calculate_retailer_score` reads only the first product of
the document; whatever follows it cannot change any component of the
result. -/
theorem c10_first_product_only (retailer : String) (p : Product)
    (rest₁ rest₂ : List Product) :
    calculate_retailer_score retailer (p :: rest₁) =
      calculate_retailer_score retailer (p :: rest₂) := rfl

/-- A raising price predicate makes the whole per-product scoring raise,
whatever the surrounding predicates return. -/
theorem scoreProduct_error_of_price (p : Product) (i : ℕ) (e : String)
    (h : _score_price p = .error e) : ∃ msg, scoreProduct i p = .error msg := by
  unfold scoreProduct
  cases h1 : _score_isbn p with
  | error e1 => exact ⟨e1, by simp [h1, bind, Except.bind]⟩
  | ok v1 =>
    cases h2 : _score_title p with
    | error e2 => exact ⟨e2, by simp [h1, h2, bind, Except.bind]⟩
    | ok v2 =>
      cases h3 : _score_contributors p with
      | error e3 => exact ⟨e3, by simp [h1, h2, h3, bind, Except.bind]⟩
      | ok v3 =>
        cases h4 : _score_description p with
        | error e4 => exact ⟨e4, by simp [h1, h2, h3, h4, bind, Except.bind]⟩
        | ok v4 =>
          cases h5 : _score_subjects p with
          | error e5 => exact ⟨e5, by simp [h1, h2, h3, h4, h5, bind, Except.bind]⟩
          | ok v5 =>
            cases h6 : _score_product_form p with
            | error e6 => exact ⟨e6, by simp [h1, h2, h3, h4, h5, h6, bind, Except.bind]⟩
            | ok v6 => exact ⟨e, by simp [h1, h2, h3, h4, h5, h6, h, bind, Except.bind]⟩

/-- A raising price predicate on any product makes the product loop raise. -/
theorem scoreProductsFrom_error_of_price (i : ℕ) (products : List Product)
    (h : ∃ p ∈ products, ∃ e, _score_price p = .error e) :
    ∃ msg, scoreProductsFrom i products = .error msg := by
  induction products generalizing i with
  | nil => simp at h
  | cons q qs ih =>
    rcases h with ⟨p, hp, e, he⟩
    rcases List.mem_cons.mp hp with rfl | hmem
    · rcases scoreProduct_error_of_price p i e he with ⟨m, hm⟩
      exact ⟨m, by simp [scoreProductsFrom, hm, bind, Except.bind]⟩
    · cases hq : scoreProduct i q with
      | error e2 => exact ⟨e2, by simp [scoreProductsFrom, hq, bind, Except.bind]⟩
      | ok s =>
        rcases ih (i + 1) ⟨p, hmem, e, he⟩ with ⟨m, hm⟩
        exact ⟨m, by simp [scoreProductsFrom, hq, hm, bind, Except.bind]⟩

/-- Claim C2 (counterexample): on a document whose one product has the
non-numeric price `"not-a-price"`, `calculate_nielsen_score` does not emit
an isolated per-field ERROR with siblings still scored — it returns the
single document-level error result (empty breakdown, every taxonomy field
listed missing), although the sibling predicates (title, publication date)
are individually scorable on the very same product. -/
theorem c2_price_error_no_isolation :
    calculate_nielsen_score [badPriceProduct] =
      .error "Nielsen scoring failed: ValueError: could not convert string to float: not-a-price"
        0 nielsenTotalPossible (NIELSEN_WEIGHTS.map Prod.fst) ∧
    _score_title badPriceProduct = .ok 15 ∧
    _score_publication_date badPriceProduct = .ok 5 := by
  refine ⟨by decide, by decide, by decide⟩

/-- Claim C2 (amended): a field predicate that fails at runtime (for
example a non-numeric PriceAmount) aborts scoring of the whole document:
the exception is caught once at document level and the function returns a
single error result with `overall_score` 0 and every taxonomy field in
`missing_critical`; sibling predicates report nothing. -/
theorem c2_field_error_aborts_document (products : List Product)
    (h : ∃ p ∈ products, ∃ e, _score_price p = .error e) :
    ∃ msg, calculate_nielsen_score products =
      .error msg 0 nielsenTotalPossible (NIELSEN_WEIGHTS.map Prod.fst) := by
  rcases scoreProductsFrom_error_of_price 0 products h with ⟨m, hm⟩
  have hne : products.isEmpty = false := by
    cases products with
    | nil => simp [scoreProductsFrom] at hm
    | cons q qs => rfl
  exact ⟨"Nielsen scoring failed: " ++ m, by simp [calculate_nielsen_score, hne, hm]⟩

/-- Witness for the amended C2 theorem at the concrete bad-price document. -/
theorem c2_field_error_aborts_document_witness :
    ∃ msg, calculate_nielsen_score [badPriceProduct] =
      .error msg 0 nielsenTotalPossible (NIELSEN_WEIGHTS.map Prod.fst) :=
  c2_field_error_aborts_document [badPriceProduct]
    ⟨badPriceProduct, by simp,
     "ValueError: could not convert string to float: not-a-price", by decide⟩

/-- Claim C8: on a one-product document whose only satisfied predicates are
a valid ISBN (weight 20) and a title (weight 15), the overall score is 35
of 100 and `missing_critical` is exactly the other ten taxonomy fields. -/
theorem c8_isbn_title_scores_35 (p : Product)
    (h1 : _score_isbn p = .ok 20) (h2 : _score_title p = .ok 15)
    (h3 : _score_contributors p = .ok 0) (h4 : _score_description p = .ok 0)
    (h5 : _score_subjects p = .ok 0) (h6 : _score_product_form p = .ok 0)
    (h7 : _score_price p = .ok 0) (h8 : _score_publication_date p = .ok 0)
    (h9 : _score_publisher p = .ok 0) (h10 : _score_imprint p = .ok 0)
    (h11 : _score_series p = .ok 0) (h12 : _score_cover_image p = .ok 0) :
    (calculate_nielsen_score [p]).overallScore = 35 ∧
    (calculate_nielsen_score [p]).missingCritical =
      ["contributors", "description", "subject_codes", "product_form", "price",
       "publication_date", "publisher", "imprint", "series", "cover_image"] := by
  have hsp : scoreProduct 0 p = .ok ⟨0, 35, 35,
      [("isbn", 20), ("title", 15), ("contributors", 0), ("description", 0),
       ("subject_codes", 0), ("product_form", 0), ("price", 0), ("publication_date", 0),
       ("publisher", 0), ("imprint", 0), ("series", 0), ("cover_image", 0)],
      ["contributors", "description", "subject_codes", "product_form", "price",
       "publication_date", "publisher", "imprint", "series", "cover_image"]⟩ := by
    unfold scoreProduct
    simp only [h1, h2, h3, h4, h5, h6, h7, h8, h9, h10, h11, h12, bind, Except.bind]
    decide
  have hloop : scoreProductsFrom 0 [p] = .ok [⟨0, 35, 35,
      [("isbn", 20), ("title", 15), ("contributors", 0), ("description", 0),
       ("subject_codes", 0), ("product_form", 0), ("price", 0), ("publication_date", 0),
       ("publisher", 0), ("imprint", 0), ("series", 0), ("cover_image", 0)],
      ["contributors", "description", "subject_codes", "product_form", "price",
       "publication_date", "publisher", "imprint", "series", "cover_image"]⟩] := by
    simp [scoreProductsFrom, hsp, bind, Except.bind]
  simp only [calculate_nielsen_score, hloop, List.isEmpty_cons]
  decide

/-- Witness for C8 at the concrete ISBN-and-title-only document. -/
theorem c8_isbn_title_scores_35_witness :
    (calculate_nielsen_score [isbnTitleProduct]).overallScore = 35 ∧
    (calculate_nielsen_score [isbnTitleProduct]).missingCritical =
      ["contributors", "description", "subject_codes", "product_form", "price",
       "publication_date", "publisher", "imprint", "series", "cover_image"] :=
  c8_isbn_title_scores_35 isbnTitleProduct (by decide) (by decide) (by decide) (by decide)
    (by decide) (by decide) (by decide) (by decide) (by decide) (by decide) (by decide)
    (by decide)

/-- `len(profile["critical_fields"])` for a recognized retailer key. -/
def criticalFieldsCountOf (retailer : String) : ℕ :=
  ((RETAILER_PROFILES.lookup retailer).map (fun profile => profile.critical_fields.length)).getD 0

/-- Claim C7 (counterexample): under the amazon profile, a document missing
only its ISBN has `"isbn"` among the missing critical fields, yet the risk
classification is MEDIUM, not HIGH: one missing field out of six critical
ones stays under the 30% count threshold, and the identity of the field
never escalates the level. -/
theorem c7_missing_isbn_not_high :
    "isbn" ∈ (calculate_retailer_score "amazon" [noIsbnProduct]).criticalMissingD ∧
    (calculate_retailer_score "amazon" [noIsbnProduct]).riskLevelD = "MEDIUM" ∧
    (calculate_retailer_score "amazon" [noIsbnProduct]).riskLevelD ≠ "HIGH" := by
  refine ⟨by decide, by decide, by decide⟩

/-- Claim C7 (amended): even when the identifier, price or format field is
among the missing critical fields, the risk level is driven by the
missing-critical count alone: MEDIUM while the count stays within 30% of
the profile's critical fields, HIGH beyond that (never LOW, since the
count is nonzero); the isbn/price/product_form identity check only adds a
"Buy button functionality at risk" factor inside the HIGH branch. -/
theorem c7_risk_depends_on_count (retailer : String) (products : List Product)
    (hok : (calculate_retailer_score retailer products).isOk = true)
    (hf : "isbn" ∈ (calculate_retailer_score retailer products).criticalMissingD ∨
      "price" ∈ (calculate_retailer_score retailer products).criticalMissingD ∨
      "product_form" ∈ (calculate_retailer_score retailer products).criticalMissingD) :
    (calculate_retailer_score retailer products).riskLevelD =
      (if (((calculate_retailer_score retailer products).criticalMissingD.length : ℚ) ≤
          (criticalFieldsCountOf retailer : ℚ) * (3/10)) then "MEDIUM" else "HIGH") := by
  unfold calculate_retailer_score criticalFieldsCountOf at *
  cases hpr : RETAILER_PROFILES.lookup retailer with
  | none => simp [hpr, RetailerResult.isOk] at hok
  | some profile =>
    cases products with
    | nil => simp [hpr, RetailerResult.isOk] at hok
    | cons p rest =>
      cases hsc : scoreFieldsLoop p profile profile.weights ⟨[], 0, [], []⟩ with
      | error e => simp [hpr, hsc, RetailerResult.isOk] at hok
      | ok acc =>
        simp only [hpr, hsc, Option.map_some', Option.getD_some,
          RetailerResult.riskLevelD, RetailerResult.criticalMissingD] at hf ⊢
        have hne : acc.missing_critical.length ≠ 0 := by
          rcases hf with h | h | h <;> exact (List.length_pos_of_mem h).ne'
        unfold _assess_retailer_risk
        rw [if_neg hne]
        split
        · rename_i h; simp [h]
        · rename_i h; simp [h]

/-- Witness for the amended C7 theorem: the amazon document missing only
its ISBN instantiates the hypotheses, and its risk level follows the count
formula. -/
theorem c7_risk_depends_on_count_witness :
    (calculate_retailer_score "amazon" [noIsbnProduct]).riskLevelD =
      (if (((calculate_retailer_score "amazon" [noIsbnProduct]).criticalMissingD.length : ℚ) ≤
          (criticalFieldsCountOf "amazon" : ℚ) * (3/10)) then "MEDIUM" else "HIGH") :=
  c7_risk_depends_on_count "amazon" [noIsbnProduct] (by decide) (Or.inl (by decide))

/-- Every branch of `calculate_retailer_score` for a recognized retailer
carries an `overall_score` key. -/
theorem calc_hasOverall (retailer : String) (products : List Product)
    (h : (RETAILER_PROFILES.lookup retailer).isSome = true) :
    (calculate_retailer_score retailer products).hasOverall = true := by
  unfold calculate_retailer_score
  cases hpr : RETAILER_PROFILES.lookup retailer with
  | none => simp [hpr] at h
  | some profile =>
    cases products with
    | nil => simp [hpr, RetailerResult.hasOverall]
    | cons p rest =>
      cases hsc : scoreFieldsLoop p profile profile.weights ⟨[], 0, [], []⟩ with
      | error e => simp [hpr, hsc, RetailerResult.hasOverall]
      | ok acc => simp [hpr, hsc, RetailerResult.hasOverall]

/-- Shape of the entries of the evaluated-retailers list. -/
theorem mem_retailerScoresList (products : List Product) (retailers : List String)
    (x : String × RetailerResult) (hx : x ∈ retailerScoresList products retailers) :
    x.1 ∈ retailers ∧ (RETAILER_PROFILES.lookup x.1).isSome = true ∧
      x.2 = calculate_retailer_score x.1 products := by
  unfold retailerScoresList at hx
  rcases List.mem_map.mp hx with ⟨r, hr, rfl⟩
  have hrf := List.mem_filter.mp (List.mem_dedup.mp hr)
  exact ⟨hrf.1, hrf.2, rfl⟩

/-- Claim C6 (counterexample): over the retailer set
`["amazon", "apple", "ingram"]` and a document missing only its publisher,
the comparison reports `"publisher"` as a common gap although it is
critical-missing for exactly one of the three evaluated retailers — one is
not "at least half" of three; the code's threshold is the floor
`3 // 2 = 1`. -/
theorem c6_gap_below_half :
    "publisher" ∈ (calculate_multi_retailer_score "doc.xml" [noPublisherProduct]
      ["amazon", "apple", "ingram"]).commonGapsD ∧
    ((["amazon", "apple", "ingram"].map
      (fun r => calculate_retailer_score r [noPublisherProduct])).filter
      (fun res => res.criticalMissingD.contains "publisher")).length = 1 ∧
    ¬ (3 ≤ 2 * 1) := by
  refine ⟨by decide, by decide, by decide⟩

/-- Claim C6 (amended): a field is in `common_gaps` exactly when it is
critical-missing for at least one evaluated retailer and its number of
occurrences across the evaluated retailers' critical-missing lists reaches
`⌊n/2⌋`, where `n` counts the requested retailer names (recognized or
not). -/
theorem c6_floor_half_threshold (docName : String) (products : List Product)
    (retailers : List String) (field : String) :
    field ∈ (calculate_multi_retailer_score docName products retailers).commonGapsD ↔
      (1 ≤ (allMissingOf products retailers).count field ∧
       retailers.length / 2 ≤ (allMissingOf products retailers).count field) := by
  have hgaps : (calculate_multi_retailer_score docName products retailers).commonGapsD =
      commonGapsOf products retailers := by
    unfold calculate_multi_retailer_score
    cases hrs : retailerScoresList products retailers with
    | nil =>
      have hempty : commonGapsOf products retailers = [] := by
        unfold commonGapsOf allMissingOf; rw [hrs]; rfl
      simp [hrs, hempty, MultiResult.commonGapsD]
    | cons hd tl =>
      have hscores : ((hd :: tl).filter (fun pr => pr.2.hasOverall)) = hd :: tl := by
        apply List.filter_eq_self.mpr
        intro x hx
        have hmem : x ∈ retailerScoresList products retailers := hrs ▸ hx
        rcases mem_retailerScoresList _ _ _ hmem with ⟨_, hsome, heq⟩
        rw [heq]
        exact calc_hasOverall _ _ hsome
      simp [hrs, hscores, MultiResult.commonGapsD]
  rw [hgaps]
  unfold commonGapsOf
  simp only [List.mem_dedup, List.mem_filter, decide_eq_true_eq]
  constructor
  · rintro ⟨hmem, hcount⟩
    exact ⟨List.count_pos_iff.mpr hmem, hcount⟩
  · rintro ⟨h1, h2⟩
    exact ⟨List.count_pos_iff.mp h1, h2⟩

/-- Every field predicate awards its full weight (the weights are the
fixed `NIELSEN_WEIGHTS` constants). -/
def allFieldPredicatesTrue (p : Product) : Prop :=
  _score_isbn p = .ok 20 ∧ _score_title p = .ok 15 ∧ _score_contributors p = .ok 12 ∧
  _score_description p = .ok 10 ∧ _score_subjects p = .ok 8 ∧ _score_product_form p = .ok 8 ∧
  _score_price p = .ok 7 ∧ _score_publication_date p = .ok 5 ∧ _score_publisher p = .ok 5 ∧
  _score_imprint p = .ok 4 ∧ _score_series p = .ok 3 ∧ _score_cover_image p = .ok 3

/-- Every field predicate awards zero. -/
def allFieldPredicatesFalse (p : Product) : Prop :=
  _score_isbn p = .ok 0 ∧ _score_title p = .ok 0 ∧ _score_contributors p = .ok 0 ∧
  _score_description p = .ok 0 ∧ _score_subjects p = .ok 0 ∧ _score_product_form p = .ok 0 ∧
  _score_price p = .ok 0 ∧ _score_publication_date p = .ok 0 ∧ _score_publisher p = .ok 0 ∧
  _score_imprint p = .ok 0 ∧ _score_series p = .ok 0 ∧ _score_cover_image p = .ok 0

instance (p : Product) : Decidable (allFieldPredicatesTrue p) := by
  unfold allFieldPredicatesTrue; infer_instance

instance (p : Product) : Decidable (allFieldPredicatesFalse p) := by
  unfold allFieldPredicatesFalse; infer_instance

/-- The per-field breakdown of a product scoring zero everywhere. -/
def nielsenZeroBreakdown : List (String × ℕ) :=
  [("isbn", 0), ("title", 0), ("contributors", 0), ("description", 0), ("subject_codes", 0),
   ("product_form", 0), ("price", 0), ("publication_date", 0), ("publisher", 0),
   ("imprint", 0), ("series", 0), ("cover_image", 0)]

/-- A product with every predicate satisfied scores a full 100. -/
theorem scoreProduct_allTrue (i : ℕ) (p : Product) (h : allFieldPredicatesTrue p) :
    scoreProduct i p = .ok ⟨i, 100, 100, NIELSEN_WEIGHTS, []⟩ := by
  obtain ⟨h1, h2, h3, h4, h5, h6, h7, h8, h9, h10, h11, h12⟩ := h
  unfold scoreProduct
  simp only [h1, h2, h3, h4, h5, h6, h7, h8, h9, h10, h11, h12, bind, Except.bind,
    Except.ok.injEq, ProductScore.mk.injEq]
  refine ⟨trivial, by decide, by decide, by decide, by decide⟩

/-- A product with every predicate unsatisfied scores zero and misses every
taxonomy field. -/
theorem scoreProduct_allFalse (i : ℕ) (p : Product) (h : allFieldPredicatesFalse p) :
    scoreProduct i p = .ok ⟨i, 0, 0, nielsenZeroBreakdown, NIELSEN_WEIGHTS.map Prod.fst⟩ := by
  obtain ⟨h1, h2, h3, h4, h5, h6, h7, h8, h9, h10, h11, h12⟩ := h
  unfold scoreProduct
  simp only [h1, h2, h3, h4, h5, h6, h7, h8, h9, h10, h11, h12, bind, Except.bind,
    Except.ok.injEq, ProductScore.mk.injEq]
  refine ⟨trivial, by decide, by decide, by decide, by decide⟩

/-- A document whose products all score the same fixed breakdown yields
the product-score list with that constant overall score. -/
theorem scoreProductsFrom_const (ps : List Product) (ov : ℚ) (tot : ℕ)
    (B : List (String × ℕ)) (M : List String)
    (h : ∀ p ∈ ps, ∀ j, scoreProduct j p = .ok ⟨j, ov, tot, B, M⟩) :
    ∀ i, ∃ l, scoreProductsFrom i ps = .ok l ∧
      l.map (·.overall_score) = List.replicate ps.length ov := by
  induction ps with
  | nil => exact fun i => ⟨[], rfl, rfl⟩
  | cons q qs ih =>
    intro i
    rcases ih (fun p hp j => h p (List.mem_cons_of_mem _ hp) j) (i + 1) with ⟨l, hl, hmap⟩
    refine ⟨⟨i, ov, tot, B, M⟩ :: l, ?_, ?_⟩
    · simp [scoreProductsFrom, h q (List.mem_cons_self _ _) i, hl, bind, Except.bind]
    · simp [hmap, List.replicate_succ]

/-- The aggregate score of a document of constant-scoring products is that
constant. -/
theorem nielsen_const_overall (products : List Product) (hne : products ≠ [])
    (ov : ℚ) (tot : ℕ) (B : List (String × ℕ)) (M : List String)
    (h : ∀ p ∈ products, ∀ j, scoreProduct j p = .ok ⟨j, ov, tot, B, M⟩)
    (hr : round1 ov = ov) :
    (calculate_nielsen_score products).overallScore = ov := by
  obtain ⟨a, b, rfl⟩ : ∃ a b, products = a :: b := by
    cases products with
    | nil => exact absurd rfl hne
    | cons a b => exact ⟨a, b, rfl⟩
  rcases scoreProductsFrom_const (a :: b) ov tot B M h 0 with ⟨l, hl, hmap⟩
  have hlen : l.length = (a :: b).length := by
    have hlc := congrArg List.length hmap
    simpa using hlc
  have hle : l.isEmpty = false := by
    cases l with
    | nil => simp at hlen
    | cons x y => rfl
  have havg : ((l.map (·.overall_score)).sum) / (l.length : ℚ) = ov := by
    rw [hmap, hlen, List.sum_replicate, nsmul_eq_mul, mul_div_cancel_left₀]
    exact Nat.cast_ne_zero.mpr (by simp)
  unfold calculate_nielsen_score
  simp only [hl, hle, List.isEmpty_cons, Bool.false_eq_true, if_false,
    NielsenResult.overallScore, havg, hr]

/-- Claim C4 (counterexample): the all-predicates-true clause of the claim
quantifies over every document, but a document with zero products
satisfies "every field predicate is true for every product" vacuously and
scores 0, not 100.0. -/
theorem c4_empty_document_scores_zero :
    (∀ p ∈ ([] : List Product), allFieldPredicatesTrue p) ∧
    (calculate_nielsen_score []).overallScore = 0 ∧
    (calculate_nielsen_score []).overallScore ≠ 100 := by
  refine ⟨by simp, by decide, by decide⟩

/-- Claim C4 (amended): the taxonomy weights sum to exactly 100; a document
with at least one product in which every field predicate is true for every
product scores 100.0 overall, and any document in which every field
predicate is false for every product scores 0.0 (a zero-product document
scores 0 by the early return). -/
theorem c4_weight_sum_and_extremes :
    (NIELSEN_WEIGHTS.map Prod.snd).sum = 100 ∧
    (∀ products : List Product, products ≠ [] →
      (∀ p ∈ products, allFieldPredicatesTrue p) →
      (calculate_nielsen_score products).overallScore = 100) ∧
    (∀ products : List Product,
      (∀ p ∈ products, allFieldPredicatesFalse p) →
      (calculate_nielsen_score products).overallScore = 0) := by
  refine ⟨by decide, ?_, ?_⟩
  · intro products hne h
    exact nielsen_const_overall products hne 100 100 NIELSEN_WEIGHTS []
      (fun p hp j => scoreProduct_allTrue j p (h p hp)) (by decide)
  · intro products h
    cases hps : products with
    | nil => decide
    | cons a b =>
      exact nielsen_const_overall (a :: b) (by simp) 0 0 nielsenZeroBreakdown
        (NIELSEN_WEIGHTS.map Prod.fst)
        (fun p hp j => scoreProduct_allFalse j p (h p (hps ▸ hp))) (by decide)

/-- Witness for the amended C4 theorem: the fully-populated demo product
scores 100, the bare product scores 0. -/
theorem c4_weight_sum_and_extremes_witness :
    (calculate_nielsen_score [fullProduct]).overallScore = 100 ∧
    (calculate_nielsen_score [emptyProduct]).overallScore = 0 :=
  ⟨c4_weight_sum_and_extremes.2.1 [fullProduct] (by simp) (by decide),
   c4_weight_sum_and_extremes.2.2 [emptyProduct] (by decide)⟩

/-- Multiples of one tenth: what every retailer `overall_score` is, being
either 0 or a `round1` value. -/
def isTenth (q : ℚ) : Prop := ∃ k : ℤ, q = (k : ℚ) / 10

theorem round1_isTenth (q : ℚ) : isTenth (round1 q) := ⟨rnte (q * 10), rfl⟩

theorem zero_isTenth : isTenth 0 := ⟨0, by norm_num⟩

theorem qfloor_eq (q : ℚ) : qfloor q = ⌊q⌋ := Rat.floor_def.symm

/-- Rounding to nearest cannot overshoot an integer upper bound. -/
theorem rnte_le_of_le (x : ℚ) (k : ℤ) (h : x ≤ (k : ℚ)) : rnte x ≤ k := by
  have hfl : ⌊x⌋ ≤ k := by
    rw [show k = ⌊(k : ℚ)⌋ from (Int.floor_intCast k).symm]
    exact Int.floor_le_floor h
  unfold rnte
  rw [qfloor_eq]
  split
  · exact hfl
  · rename_i hc1
    have hfr := not_lt.mp hc1
    have hx : (⌊x⌋ : ℚ) < (k : ℚ) := by
      have hlf := Int.floor_le x
      linarith
    have h2 : ⌊x⌋ < k := by exact_mod_cast hx
    split
    · omega
    · split <;> omega

/-- Rounding to nearest cannot undershoot an integer lower bound. -/
theorem le_rnte_of_le (x : ℚ) (k : ℤ) (h : (k : ℚ) ≤ x) : k ≤ rnte x := by
  have hfl : k ≤ ⌊x⌋ := Int.le_floor.mpr h
  unfold rnte
  rw [qfloor_eq]
  split
  · exact hfl
  · split
    · omega
    · split <;> omega

/-- `round(x, 1)` cannot overshoot a tenth-valued upper bound. -/
theorem round1_le_of_le_tenth (x b : ℚ) (hb : isTenth b) (h : x ≤ b) : round1 x ≤ b := by
  rcases hb with ⟨k, rfl⟩
  unfold round1
  have h10 : x * 10 ≤ (k : ℚ) := by
    have hm := mul_le_mul_of_nonneg_right h (by norm_num : (0 : ℚ) ≤ 10)
    have hk : (k : ℚ) / 10 * 10 = (k : ℚ) := by field_simp
    linarith
  have hr := rnte_le_of_le (x * 10) k h10
  have hc : ((rnte (x * 10) : ℤ) : ℚ) ≤ (k : ℚ) := by exact_mod_cast hr
  linarith

/-- `round(x, 1)` cannot undershoot a tenth-valued lower bound. -/
theorem tenth_le_round1 (x b : ℚ) (hb : isTenth b) (h : b ≤ x) : b ≤ round1 x := by
  rcases hb with ⟨k, rfl⟩
  unfold round1
  have h10 : (k : ℚ) ≤ x * 10 := by
    have hm := mul_le_mul_of_nonneg_right h (by norm_num : (0 : ℚ) ≤ 10)
    have hk : (k : ℚ) / 10 * 10 = (k : ℚ) := by field_simp
    linarith
  have hr := le_rnte_of_le (x * 10) k h10
  have hc : (k : ℚ) ≤ ((rnte (x * 10) : ℤ) : ℚ) := by exact_mod_cast hr
  linarith

/-- The Python `max(…, key=snd)` fold keeps an element of the list. -/
theorem foldl_max_mem (xs : List (String × ℚ)) (b : String × ℚ) :
    xs.foldl (fun best y => if best.2 < y.2 then y else best) b = b ∨
    xs.foldl (fun best y => if best.2 < y.2 then y else best) b ∈ xs := by
  induction xs generalizing b with
  | nil => exact Or.inl rfl
  | cons y ys ih =>
    simp only [List.foldl_cons]
    rcases ih (if b.2 < y.2 then y else b) with he | hm
    · rw [he]
      split
      · exact Or.inr (List.mem_cons_self _ _)
      · exact Or.inl rfl
    · exact Or.inr (List.mem_cons_of_mem _ hm)

/-- The Python `max(…, key=snd)` fold bounds the seed and every element. -/
theorem foldl_max_bound (xs : List (String × ℚ)) (b : String × ℚ) :
    b.2 ≤ (xs.foldl (fun best y => if best.2 < y.2 then y else best) b).2 ∧
    ∀ x ∈ xs, x.2 ≤ (xs.foldl (fun best y => if best.2 < y.2 then y else best) b).2 := by
  induction xs generalizing b with
  | nil => exact ⟨le_refl _, by simp⟩
  | cons y ys ih =>
    simp only [List.foldl_cons]
    rcases ih (if b.2 < y.2 then y else b) with ⟨hseed, hall⟩
    have hb : b.2 ≤ (if b.2 < y.2 then y else b).2 := by
      split
      · rename_i hlt; exact le_of_lt hlt
      · exact le_refl _
    have hy : y.2 ≤ (if b.2 < y.2 then y else b).2 := by
      split
      · exact le_refl _
      · rename_i hlt; exact not_lt.mp hlt
    refine ⟨le_trans hb hseed, ?_⟩
    intro x hx
    rcases List.mem_cons.mp hx with rfl | hx
    · exact le_trans hy hseed
    · exact hall x hx

/-- The Python `min(…, key=snd)` fold keeps an element of the list. -/
theorem foldl_min_mem (xs : List (String × ℚ)) (b : String × ℚ) :
    xs.foldl (fun best y => if y.2 < best.2 then y else best) b = b ∨
    xs.foldl (fun best y => if y.2 < best.2 then y else best) b ∈ xs := by
  induction xs generalizing b with
  | nil => exact Or.inl rfl
  | cons y ys ih =>
    simp only [List.foldl_cons]
    rcases ih (if y.2 < b.2 then y else b) with he | hm
    · rw [he]
      split
      · exact Or.inr (List.mem_cons_self _ _)
      · exact Or.inl rfl
    · exact Or.inr (List.mem_cons_of_mem _ hm)

/-- The Python `min(…, key=snd)` fold lower-bounds the seed and every
element. -/
theorem foldl_min_bound (xs : List (String × ℚ)) (b : String × ℚ) :
    (xs.foldl (fun best y => if y.2 < best.2 then y else best) b).2 ≤ b.2 ∧
    ∀ x ∈ xs, (xs.foldl (fun best y => if y.2 < best.2 then y else best) b).2 ≤ x.2 := by
  induction xs generalizing b with
  | nil => exact ⟨le_refl _, by simp⟩
  | cons y ys ih =>
    simp only [List.foldl_cons]
    rcases ih (if y.2 < b.2 then y else b) with ⟨hseed, hall⟩
    have hb : (if y.2 < b.2 then y else b).2 ≤ b.2 := by
      split
      · rename_i hlt; exact le_of_lt hlt
      · exact le_refl _
    have hy : (if y.2 < b.2 then y else b).2 ≤ y.2 := by
      split
      · exact le_refl _
      · rename_i hlt; exact not_lt.mp hlt
    refine ⟨le_trans hseed hb, ?_⟩
    intro x hx
    rcases List.mem_cons.mp hx with rfl | hx
    · exact le_trans hseed hy
    · exact hall x hx

/-- `pyMaxBySnd` of a nonempty list is a member and an upper bound. -/
theorem pyMaxBySnd_spec (x0 : String × ℚ) (xs : List (String × ℚ)) :
    pyMaxBySnd (x0 :: xs) ∈ x0 :: xs ∧
    ∀ x ∈ x0 :: xs, x.2 ≤ (pyMaxBySnd (x0 :: xs)).2 := by
  simp only [pyMaxBySnd]
  rcases foldl_max_bound xs x0 with ⟨hseed, hall⟩
  refine ⟨?_, ?_⟩
  · rcases foldl_max_mem xs x0 with he | hm
    · rw [he]; exact List.mem_cons_self _ _
    · exact List.mem_cons_of_mem _ hm
  · intro x hx
    rcases List.mem_cons.mp hx with rfl | hx
    · exact hseed
    · exact hall x hx

/-- `pyMinBySnd` of a nonempty list is a member and a lower bound. -/
theorem pyMinBySnd_spec (x0 : String × ℚ) (xs : List (String × ℚ)) :
    pyMinBySnd (x0 :: xs) ∈ x0 :: xs ∧
    ∀ x ∈ x0 :: xs, (pyMinBySnd (x0 :: xs)).2 ≤ x.2 := by
  simp only [pyMinBySnd]
  rcases foldl_min_bound xs x0 with ⟨hseed, hall⟩
  refine ⟨?_, ?_⟩
  · rcases foldl_min_mem xs x0 with he | hm
    · rw [he]; exact List.mem_cons_self _ _
    · exact List.mem_cons_of_mem _ hm
  · intro x hx
    rcases List.mem_cons.mp hx with rfl | hx
    · exact hseed
    · exact hall x hx

/-- The mean of a bounded nonempty list is bounded. -/
theorem avg_between (l : List ℚ) (hne : l ≠ []) (lo hi : ℚ)
    (hlo : ∀ x ∈ l, lo ≤ x) (hhi : ∀ x ∈ l, x ≤ hi) :
    lo ≤ l.sum / (l.length : ℚ) ∧ l.sum / (l.length : ℚ) ≤ hi := by
  have hlen : 0 < (l.length : ℚ) := by
    have hp : 0 < l.length := List.length_pos.mpr hne
    exact_mod_cast hp
  constructor
  · rw [le_div_iff₀ hlen]
    have := List.card_nsmul_le_sum l lo hlo
    rw [nsmul_eq_mul] at this
    linarith
  · rw [div_le_iff₀ hlen]
    have := List.sum_le_card_nsmul l hi hhi
    rw [nsmul_eq_mul] at this
    linarith

/-- Every `overall_score` a retailer result carries is a multiple of one
tenth (0 on the degenerate branches, a `round1` value on success). -/
theorem calc_overall_isTenth (retailer : String) (products : List Product) :
    isTenth ((calculate_retailer_score retailer products).overallScoreD) := by
  unfold calculate_retailer_score
  cases hpr : RETAILER_PROFILES.lookup retailer with
  | none => simp only [hpr]; exact zero_isTenth
  | some profile =>
    simp only [hpr]
    cases products with
    | nil => exact zero_isTenth
    | cons p rest =>
      cases hsc : scoreFieldsLoop p profile profile.weights ⟨[], 0, [], []⟩ with
      | error e => simp only [hsc]; exact zero_isTenth
      | ok acc => simp only [hsc]; exact round1_isTenth _

/-- Claim C5: for every document and nonempty set of recognized retailer
profiles, the comparison reports `best_fit_score ≥ average_score ≥
worst_fit_score` (the rounded mean stays within the extremes because every
individual score lies on the tenths grid), and every field in
`common_gaps` belongs to some evaluated retailer's critical-missing
set. -/
theorem c5_comparative_shape (docName : String) (products : List Product)
    (retailers : List String) (hne : retailers ≠ []) (hnd : retailers.Nodup)
    (hrec : ∀ r ∈ retailers, (RETAILER_PROFILES.lookup r).isSome = true) :
    ((calculate_multi_retailer_score docName products retailers).worstFitScoreD ≤
      (calculate_multi_retailer_score docName products retailers).averageScoreD ∧
     (calculate_multi_retailer_score docName products retailers).averageScoreD ≤
      (calculate_multi_retailer_score docName products retailers).bestFitScoreD) ∧
    (∀ f ∈ (calculate_multi_retailer_score docName products retailers).commonGapsD,
      ∃ r ∈ retailers, f ∈ (calculate_retailer_score r products).criticalMissingD) := by
  obtain ⟨r0, rtl, rfl⟩ : ∃ r0 rtl, retailers = r0 :: rtl := by
    cases retailers with
    | nil => exact absurd rfl hne
    | cons a b => exact ⟨a, b, rfl⟩
  have hRSne : retailerScoresList products (r0 :: rtl) ≠ [] := by
    unfold retailerScoresList
    apply List.ne_nil_of_mem (a := (r0, calculate_retailer_score r0 products))
    apply List.mem_map_of_mem
    apply List.mem_dedup.mpr
    exact List.mem_filter.mpr ⟨List.mem_cons_self _ _, hrec r0 (List.mem_cons_self _ _)⟩
  obtain ⟨hd, tl, hrs⟩ : ∃ hd tl, retailerScoresList products (r0 :: rtl) = hd :: tl := by
    cases h : retailerScoresList products (r0 :: rtl) with
    | nil => exact absurd h hRSne
    | cons a b => exact ⟨a, b, rfl⟩
  have hfilter : ((hd :: tl).filter (fun pr => pr.2.hasOverall)) = hd :: tl := by
    apply List.filter_eq_self.mpr
    intro x hx
    rcases mem_retailerScoresList _ _ _ (hrs ▸ hx) with ⟨_, hsome, heq⟩
    rw [heq]
    exact calc_hasOverall _ _ hsome
  -- facts about the score pairs
  have hshape : ∀ x ∈ (hd :: tl).map (fun pr => (pr.1, pr.2.overallScoreD)),
      x.1 ∈ r0 :: rtl ∧ x.2 = (calculate_retailer_score x.1 products).overallScoreD := by
    intro x hx
    rcases List.mem_map.mp hx with ⟨pr, hpr, rfl⟩
    rcases mem_retailerScoresList _ _ _ (hrs ▸ hpr) with ⟨hmem, _, heq⟩
    exact ⟨hmem, by rw [heq]⟩
  have htenth : ∀ x ∈ (hd :: tl).map (fun pr => (pr.1, pr.2.overallScoreD)), isTenth x.2 := by
    intro x hx
    rcases hshape x hx with ⟨_, hx2⟩
    rw [hx2]
    exact calc_overall_isTenth _ _
  -- the comparative block, reduced to the success constructor
  simp only [calculate_multi_retailer_score, hrs, hfilter, List.isEmpty_cons,
    Bool.false_eq_true, if_false, MultiResult.averageScoreD,
    MultiResult.bestFitScoreD, MultiResult.worstFitScoreD, MultiResult.commonGapsD]
  set scores := (hd :: tl).map (fun pr => (pr.1, pr.2.overallScoreD)) with hscdef
  obtain ⟨s0, stl, hscons⟩ : ∃ s0 stl, scores = s0 :: stl := by
    rw [hscdef]
    exact ⟨_, _, rfl⟩
  have hmax := pyMaxBySnd_spec s0 stl
  have hmin := pyMinBySnd_spec s0 stl
  rw [hscons] at htenth ⊢
  have hvalsne : (s0 :: stl).map (fun x => x.2) ≠ [] := by simp
  have havg := avg_between ((s0 :: stl).map (fun x => x.2)) hvalsne
    (pyMinBySnd (s0 :: stl)).2 (pyMaxBySnd (s0 :: stl)).2
    (by
      intro v hv
      rcases List.mem_map.mp hv with ⟨x, hx, rfl⟩
      exact hmin.2 x hx)
    (by
      intro v hv
      rcases List.mem_map.mp hv with ⟨x, hx, rfl⟩
      exact hmax.2 x hx)
  rw [List.length_map] at havg
  constructor
  · constructor
    · exact tenth_le_round1 _ _ (htenth _ hmin.1) havg.1
    · exact round1_le_of_le_tenth _ _ (htenth _ hmax.1) havg.2
  · intro f hf
    unfold commonGapsOf at hf
    have hfm : f ∈ allMissingOf products (r0 :: rtl) :=
      List.mem_of_mem_filter (List.mem_dedup.mp hf)
    unfold allMissingOf at hfm
    rcases List.mem_flatten.mp hfm with ⟨cm, hcm, hfcm⟩
    rcases List.mem_map.mp hcm with ⟨pr, hpr, rfl⟩
    rcases mem_retailerScoresList _ _ _ hpr with ⟨hmem, _, heq⟩
    exact ⟨pr.1, hmem, heq ▸ hfcm⟩

/-- Witness for C5 at a concrete document (no products) and the retailer
set `["amazon", "ingram"]`. -/
theorem c5_comparative_shape_witness :
    ((calculate_multi_retailer_score "doc.xml" [] ["amazon", "ingram"]).worstFitScoreD ≤
      (calculate_multi_retailer_score "doc.xml" [] ["amazon", "ingram"]).averageScoreD ∧
     (calculate_multi_retailer_score "doc.xml" [] ["amazon", "ingram"]).averageScoreD ≤
      (calculate_multi_retailer_score "doc.xml" [] ["amazon", "ingram"]).bestFitScoreD) ∧
    (∀ f ∈ (calculate_multi_retailer_score "doc.xml" [] ["amazon", "ingram"]).commonGapsD,
      ∃ r ∈ ["amazon", "ingram"],
        f ∈ (calculate_retailer_score r [] ).criticalMissingD) :=
  c5_comparative_shape "doc.xml" [] ["amazon", "ingram"] (by decide) (by decide) (by decide)

end MetaOps
